import Mathlib

/-!
Verification development for the voice-interaction control core.

The definitions below are shallow embeddings of the Python sources:
* `src/nodes/cognitive/commands/converter.py` (slot-to-command conversion)
* `src/nodes/cognitive/utils/confidence.py` (confidence gating)
* `src/nodes/cognitive/intents/router.py` (intent routing)
* `src/nodes/cognitive/clients/openai.py` (tolerant reply parsing)
* `src/nodes/cognitive/classifiers/stop.py` (stop-command classifier)
* `src/nodes/perception/mic_driver/recording.py` and
  `recording_control.py` (segmentation engine and pause/resume flags)

Python machine floats are modelled as rationals; the rendering of a
non-integral float by `str` is taken as a parameter (`fs`) since no claim
depends on it.  Python strings are modelled as Lean `String`
(for the slash-free command/router layer) and as `List Char` (for the
character-level stop classifier).  Dictionaries holding slot data are
modelled by structures with `Option` fields: `none` models an absent key
(or, for values read with `.get`, an absent-or-`None` entry).
-/

namespace Phase2

/-- A numeric Python value: either an `int` or a `float`.
Floats are modelled as exact rationals; every claim that touches
formatting only touches whole-number floats, whose `str` is exact. -/
inductive PyNum where
  | int (n : ℤ)
  | float (q : ℚ)
deriving DecidableEq, Repr

/-- Render an optional string the way a Python f-string renders the value:
`None` prints as `"None"`, a string prints bare. -/
def optStr : Option String → String
  | none => "None"
  | some s => s

/-- `settings.DEFAULT_DISTANCE = 1.0` (a float). -/
def DEFAULT_DISTANCE : PyNum := .float 1

/-- `settings.DEFAULT_ANGLE = 90.0` (a float). -/
def DEFAULT_ANGLE : PyNum := .float 90

/-- `settings.MOVE_COMMANDS` as a lookup: direction string to token. -/
def MOVE_COMMANDS : String → Option String := fun d =>
  if d = "forwards" then some "FWD"
  else if d = "backwards" then some "BWD"
  else none

/-- `settings.TURN_COMMANDS` as a lookup: direction string to token. -/
def TURN_COMMANDS : String → Option String := fun d =>
  if d = "left" then some "TL"
  else if d = "right" then some "TR"
  else none

/-- One slot dictionary: `{type, direction, distance?, angle?}`.
A field is `none` when the key is absent or maps to Python `None`
(the source only ever reads these keys with `.get`, which conflates
the two). -/
structure Slot where
  type : Option String
  direction : Option String
  distance : Option PyNum
  angle : Option PyNum
deriving DecidableEq, Repr

/-- `converter._format_value`: `None` is an error; an integral float
prints via `str(int(v))`; an `int` and a non-integral float print via
`str(v)`.  `fs` is the (unused-by-the-claims) rendering of a
non-integral float. -/
def format_value (fs : ℚ → String) : Option PyNum → Except String String
  | none => .error "Value cannot be None"
  | some (.int n) => .ok (toString n)
  | some (.float q) =>
      if q.den = 1 then .ok (toString q.num) else .ok (fs q)

/-- `converter.normalize_slots`: copy each slot, filling the type-specific
default for a missing/`None` primary numeric value. -/
def normalize_slots (slots : List Slot) : List Slot :=
  slots.map fun slot =>
    if slot.type = some "move" ∧ slot.distance = none then
      { slot with distance := some DEFAULT_DISTANCE }
    else if slot.type = some "turn" ∧ slot.angle = none then
      { slot with angle := some DEFAULT_ANGLE }
    else slot

/-- `converter.slot_to_command`: map `{type, direction}` through the fixed
tables; unknown direction or type raises `ValueError` (modelled as
`.error` carrying the message). -/
def slot_to_command (fs : ℚ → String) (slot : Slot) : Except String String :=
  match slot.type with
  | some "move" =>
      match slot.direction.bind MOVE_COMMANDS with
      | none => .error ("Unknown move direction: " ++ optStr slot.direction)
      | some cmd => (format_value fs slot.distance).map (fun v => cmd ++ "," ++ v)
  | some "turn" =>
      match slot.direction.bind TURN_COMMANDS with
      | none => .error ("Unknown turn direction: " ++ optStr slot.direction)
      | some cmd => (format_value fs slot.angle).map (fun v => cmd ++ "," ++ v)
  | t => .error ("Unknown slot type: " ++ optStr t)

/-- The list comprehension `[slot_to_command(slot) for slot in normalized]`:
convert left to right, the first raised `ValueError` aborting the whole
list. -/
def convertAll (fs : ℚ → String) : List Slot → Except String (List String)
  | [] => .ok []
  | s :: rest =>
      match slot_to_command fs s with
      | .error e => .error e
      | .ok c => (convertAll fs rest).map (fun cs => c :: cs)

/-- `converter.slots_to_command`: empty list is an error; otherwise
normalize, convert every slot left to right aborting on the first
failure, and join `"$SEQ;" ++ ";".join(commands) ++ ";STOP\n"`. -/
def slots_to_command (fs : ℚ → String) (slots : List Slot) : Except String String :=
  if slots = [] then .error "Slots array is empty"
  else
    match convertAll fs (normalize_slots slots) with
    | .error e => .error e
    | .ok commands => .ok ("$SEQ;" ++ String.intercalate ";" commands ++ ";STOP\n")

/-- The runtime value found under a result's `"slots"` key: either a list
of slot dictionaries (the declared data-model shape) or a dictionary
with string keys/values (the shape produced by the parse fallback and
read by the action-response templates). -/
inductive PySlots where
  | plist (l : List Slot)
  | pdict (d : List (String × String))
deriving DecidableEq, Repr

/-- `len(slots)` for either runtime shape. -/
def pySlotsLen : PySlots → ℕ
  | .plist l => l.length
  | .pdict d => d.length

/-- Python truthiness of a slots value: empty list and empty dict are falsy. -/
def pySlotsEmpty : PySlots → Bool
  | .plist l => l.isEmpty
  | .pdict d => d.isEmpty

/-- The confidence entry of a result: a string or a number. -/
inductive ConfVal where
  | str (s : String)
  | num (q : ℚ)
deriving DecidableEq, Repr

/-- A classification-result dictionary, with `none` marking an absent key.
`formatted_command` distinguishes an absent key (`none`) from a key
present with value `None` (`some none`). -/
structure CResult where
  intent : Option String
  confidence : Option ConfVal
  slots : Option PySlots
  response : Option String
  raw_text : Option String
  formatted_command : Option (Option String)
  command_error : Option String
deriving DecidableEq, Repr

/-- `normalize_slots` applied through the dynamic `"slots"` value, as the
interpreter runs it inside `slots_to_command`.  Iterating a dict yields
its keys (strings); `dict(key)` then raises
`ValueError: dictionary update sequence element #0 has length 1; 2 is required`
for any non-empty key, and builds the empty slot dict `{}` for the key
`""` (iterating the empty string yields nothing). -/
def normalize_slots_dyn : PySlots → Except String (List Slot)
  | .plist l => .ok (normalize_slots l)
  | .pdict d => dictKeysToSlots d
where
  /-- Iterate the dict's keys as `normalize_slots`'s loop would. -/
  dictKeysToSlots : List (String × String) → Except String (List Slot)
    | [] => .ok []
    | kv :: rest =>
        if kv.1 = "" then
          (dictKeysToSlots rest).map (fun l => (⟨none, none, none, none⟩ : Slot) :: l)
        else .error "dictionary update sequence element #0 has length 1; 2 is required"

/-- `converter.slots_to_command` on the dynamic `"slots"` value
(the call made by `convert_result`). -/
def slots_to_command_dyn (fs : ℚ → String) (s : PySlots) : Except String String :=
  if pySlotsEmpty s then .error "Slots array is empty"
  else
    match normalize_slots_dyn s with
    | .error e => .error e
    | .ok normalized =>
        match convertAll fs normalized with
        | .error e => .error e
        | .ok commands => .ok ("$SEQ;" ++ String.intercalate ";" commands ++ ";STOP\n")

/-- `converter.convert_result`: copy the result; for intent `"navigate"`
run the slot conversion and capture a `ValueError` into
`formatted_command = None` plus a `command_error` message; for intent
`"stop"` store the fixed literal; otherwise return the copy unchanged. -/
def convert_result (fs : ℚ → String) (r : CResult) : CResult :=
  if r.intent = some "navigate" then
    match slots_to_command_dyn fs (r.slots.getD (.plist [])) with
    | .ok cmd => { r with formatted_command := some (some cmd) }
    | .error e =>
        { r with formatted_command := some none, command_error := some e }
  else if r.intent = some "stop" then
    { r with formatted_command := some (some "$SEQ,STOP\n") }
  else r

/-! ### Confidence utilities (`utils/confidence.py`) -/

/-- `settings.CONFIDENCE_HIGH = 1.0`. -/
def CONFIDENCE_HIGH : ℚ := 1

/-- `settings.CONFIDENCE_MEDIUM = 0.8`. -/
def CONFIDENCE_MEDIUM : ℚ := 4/5

/-- `settings.CONFIDENCE_LOW = 0.5`. -/
def CONFIDENCE_LOW : ℚ := 1/2

/-- `settings.CONFIDENCE_THRESHOLD = 0.8`. -/
def CONFIDENCE_THRESHOLD : ℚ := 4/5

/-- `confidence.get_confidence_value`: missing key defaults to `0.0`;
`"high"` and `"medium"` map to the fixed values, any other string to
`0.5`; a numeric value passes through. -/
def get_confidence_value (r : CResult) : ℚ :=
  match r.confidence.getD (.num 0) with
  | .str s =>
      if s = "high" then CONFIDENCE_HIGH
      else if s = "medium" then CONFIDENCE_MEDIUM
      else CONFIDENCE_LOW
  | .num q => q

/-- `confidence.check_confidence_with_value`: the numeric value together
with the `value >= threshold` test. -/
def check_confidence_with_value (r : CResult) (threshold : ℚ) : ℚ × Bool :=
  (get_confidence_value r, get_confidence_value r ≥ threshold)

/-! ### Intent router (`intents/router.py`) -/

/-- `settings.COMMAND_INTENTS`. -/
def COMMAND_INTENTS : List String := ["navigate", "stop"]

/-- `settings.RESPONSE_INTENTS`. -/
def RESPONSE_INTENTS : List String := ["greeting", "noise", "conversation", "unknown"]

/-- `settings.ACTION_INTENTS`. -/
def ACTION_INTENTS : List String := ["tracking-person", "go_to_object", "go_to_location"]

/-- `IntentRouter.get_route_type`: membership in the three fixed sets,
anything else routes as `"unknown"`. -/
def get_route_type (intent : String) : String :=
  if intent ∈ COMMAND_INTENTS then "command"
  else if intent ∈ RESPONSE_INTENTS then "response"
  else if intent ∈ ACTION_INTENTS then "action"
  else "unknown"

/-- A Python exception escaping `IntentRouter.route`; the only one the
modelled value domain can produce is the `AttributeError` raised by
`slots.get(...)` when the slots value is a list. -/
inductive PyErr where
  | attrError (msg : String)
deriving DecidableEq, Repr

/-- Observable side effects of one `route` call, in order: running the
command converter, invoking a registered action handler, and sending a
response to the speech-output client. -/
inductive REffect where
  | converterRun
  | actionRun (intent : String)
  | ttsSpoken (text : String)
deriving DecidableEq, Repr

/-- The decision dictionary built by `IntentRouter.route`. -/
structure RouteOutput where
  intent : String
  confidence : ℚ
  passed : Bool
  route : String
  response : String
  command : Option String
  action_result : Option ℤ
deriving DecidableEq, Repr

/-- The fixed low-confidence fallback phrase in `IntentRouter.route`. -/
def FALLBACK_RESPONSE : String := "Xin lỗi, tôi không chắc chắn. Bạn nói lại được không?"

/-- `IntentRouter._command_response`. -/
def command_response (intent : String) (r : CResult) : String :=
  if intent = "navigate" then
    "Đã nhận lệnh di chuyển với " ++ toString (pySlotsLen (r.slots.getD (.plist []))) ++ " hành động."
  else if intent = "stop" then "Đã dừng lại."
  else ""

/-- `IntentRouter._text_response`; the response-template tables are an
external collaborator, passed in as `getResp`. -/
def text_response (getResp : String → String → String) (intent : String) (r : CResult) : String :=
  if intent = "greeting" then getResp "greeting" (r.raw_text.getD "")
  else if intent = "noise" then getResp "noise" ""
  else if intent = "conversation" then r.response.getD "Tôi không hiểu."
  else "Xin lỗi, tôi không hiểu yêu cầu của bạn."

/-- `IntentRouter._action_response`: templated confirmation phrases; the
two `go_to` templates read `slots.get(...)`, which raises
`AttributeError` when the slots value is a list. -/
def action_response (intent : String) (r : CResult) : Except PyErr String :=
  let slots := r.slots.getD (.pdict [])
  if intent = "tracking-person" then .ok "Đang theo dõi bạn."
  else if intent = "go_to_object" then
    match slots with
    | .pdict d => .ok ("Đang đi tới " ++ (((d.lookup "object").getD "đó")) ++ ".")
    | .plist _ => .error (.attrError "list object has no attribute get")
  else if intent = "go_to_location" then
    match slots with
    | .pdict d => .ok ("Đang đi tới " ++ (((d.lookup "location").getD "đó")) ++ ".")
    | .plist _ => .error (.attrError "list object has no attribute get")
  else .ok ""

/-- `IntentRouter._execute_action`: call the registered handler if one
exists, else `None`; paired with the effect it produces. -/
def execute_action (handlers : String → Option (CResult → ℤ)) (intent : String)
    (r : CResult) : Option ℤ × List REffect :=
  match handlers intent with
  | some h => (some (h r), [.actionRun intent])
  | none => (none, [])

/-- `IntentRouter.route`: confidence gate, dispatch by route type, then
optional speech output.  Returns the decision together with the ordered
effect log, or the Python exception that escaped. -/
def route (threshold : ℚ) (handlers : String → Option (CResult → ℤ))
    (getResp : String → String → String) (fs : ℚ → String)
    (r : CResult) (use_tts : Bool) : Except PyErr (RouteOutput × List REffect) := do
  let intent := r.intent.getD "unknown"
  let (confidence, passed) := check_confidence_with_value r threshold
  let route_type := get_route_type intent
  let base : RouteOutput :=
    { intent := intent, confidence := confidence, passed := passed,
      route := route_type, response := "", command := none, action_result := none }
  let (output, effects) ←
    if !passed then
      pure ({ base with response := FALLBACK_RESPONSE }, ([] : List REffect))
    else if route_type = "command" then
      let converted := convert_result fs r
      pure ({ base with
                command := (converted.formatted_command.getD none),
                response := command_response intent converted },
            [REffect.converterRun])
    else if route_type = "response" then
      pure ({ base with response := text_response getResp intent r }, [])
    else if route_type = "action" then
      let (ares, aeffs) := execute_action handlers intent r
      match action_response intent r with
      | .error e => throw e
      | .ok resp =>
          pure ({ base with action_result := ares, response := resp }, aeffs)
    else
      pure (base, [])
  let ttsEffs := if use_tts ∧ output.response ≠ "" then [REffect.ttsSpoken output.response] else []
  pure (output, effects ++ ttsEffs)

/-! ### Character-level text utilities

Python string scalars are sequences of code points; `List Char` models
them exactly (`len` is `List.length`).  `\s` and `str.strip()` are taken
over the ASCII whitespace characters, which covers every string the
sources and configuration handle. -/

/-- ASCII whitespace, the character class backing `\s` and `.strip()`
on the modelled inputs. -/
def isWS (c : Char) : Bool :=
  c = ' ' ∨ c = '\t' ∨ c = '\n' ∨ c = '\r' ∨ c = '\x0b' ∨ c = '\x0c'

/-- `str.strip()`: drop whitespace from both ends. -/
def pyStrip (s : List Char) : List Char :=
  ((s.dropWhile isWS).reverse.dropWhile isWS).reverse

/-- `str.strip()` on a Lean `String`. -/
def pyStripStr (s : String) : String := String.mk (pyStrip s.data)

mutual

/-- `re.sub(r'\s+', ' ', s)`: replace each maximal whitespace run by a
single space. -/
def collapseWS : List Char → List Char
  | [] => []
  | c :: cs => if isWS c then ' ' :: collapseSkipWS cs else c :: collapseWS cs

/-- Helper for `collapseWS`: consume the rest of a whitespace run. -/
def collapseSkipWS : List Char → List Char
  | [] => []
  | c :: cs => if isWS c then collapseSkipWS cs else c :: collapseWS cs

end

/-- Count of whitespace-delimited tokens, i.e. `len(s.split())`. -/
def pySplitCount (s : List Char) : ℕ :=
  go s false
where
  /-- Scan, counting transitions into non-whitespace runs; the flag says
  whether the previous character was inside a word. -/
  go : List Char → Bool → ℕ
    | [], _ => 0
    | c :: cs, inWord =>
        if isWS c then go cs false
        else (if inWord then 0 else 1) + go cs true

/-- `a.startsWith b` on character lists. -/
def listStartsWith : List Char → List Char → Bool
  | _, [] => true
  | [], _ :: _ => false
  | a :: as, b :: bs => a = b && listStartsWith as bs

/-- Python's substring test `w in s`. -/
def containsSub (s w : List Char) : Bool :=
  s.tails.any (fun t => listStartsWith t w)

/-! ### Tolerant reply parsing (`clients/openai.py`) -/

/-- The fence-stripping preprocessing inside `parse_json_response`:
strip the reply; when it begins a fenced code block, drop every
fence-marker line before parsing. -/
def fencePreprocess (response_text : String) : String :=
  let text := pyStripStr response_text
  if text.startsWith "```" then
    String.intercalate "\n" ((text.splitOn "\n").filter (fun l => !(l.startsWith "```")))
  else text

/-- The typed fallback result returned on parse failure: intent
`"unknown"`, confidence `0.0`, empty slots dict, empty response, with
the original reply kept in `raw_text`. -/
def parseFallback (response_text : String) : CResult :=
  { intent := some "unknown", confidence := some (.num 0),
    slots := some (.pdict []), response := some "", raw_text := some response_text,
    formatted_command := none, command_error := none }

/-- `openai.parse_json_response`.  `jp` is the embedding of `json.loads`
returning `none` on `JSONDecodeError`; the whole function is total:
a parsed value comes back on the left, the typed fallback on the
right. -/
def parse_json_response {α : Type} (jp : String → Option α) (response_text : String) :
    α ⊕ CResult :=
  let text := pyStripStr response_text
  let text :=
    if text.startsWith "```" then
      String.intercalate "\n" ((text.splitOn "\n").filter (fun l => !(l.startsWith "```")))
    else text
  match jp text with
  | some v => .inl v
  | none => .inr (parseFallback response_text)

/-! ### Stop-command classifier (`classifiers/stop.py`)

The classifier's word lists (`STOP_WORDS`, `STOP_PREFIXES`,
`STOP_SUFFIXES`) and the `INTENT_STOP` literal are imported from
`config.settings` but are not defined in the sources; they are taken
here as parameters of the classifier (`StopCfg`), together with the
code-point lowercasing map `str.lower`.  The configured words are
assumed to be in lowercase already, which makes the `re.IGNORECASE`
flag on the compiled patterns the identity. -/

/-- Modelled from the spec: the missing `settings.INTENT_STOP` constant;
the spec fixes the positive intent tag to `"stop"`. -/
def INTENT_STOP : String := "stop"

/-- The classifier's configuration: stop words, optional leading and
trailing filler phrases, and the lowercasing map. -/
structure StopCfg where
  stopWords : List (List Char)
  stopPrefixes : List (List Char)
  stopSuffixes : List (List Char)
  lower : Char → Char

/-- The result dictionary built by `StopClassifier._result`; note the
confidence of a negative result stays at the default `CONFIDENCE_HIGH`. -/
structure StopResult where
  text : List Char
  intent : String
  is_stop : Bool
  confidence : ℚ
deriving DecidableEq

/-- `StopClassifier._result`. -/
def stopMkResult (text : List Char) (flag : Bool) (confidence : ℚ := CONFIDENCE_HIGH) :
    StopResult :=
  { text := text, intent := if flag then INTENT_STOP else "not_stop",
    is_stop := flag, confidence := confidence }

/-- `StopClassifier._normalize`: lowercase and strip, delete every run of
the punctuation characters `!?.,:;`, collapse whitespace, strip. -/
def stopNormalize (lower : Char → Char) (text : List Char) : List Char :=
  pyStrip (collapseWS (((pyStrip (text.map lower)).filter
    (fun c => !(c = '!' ∨ c = '?' ∨ c = '.' ∨ c = ',' ∨ c = ':' ∨ c = ';')))))

/-- `l.all isWS`: the string is made of whitespace only. -/
def allWS (l : List Char) : Bool := l.all isWS

/-- Tail test of a compiled stop pattern: the remainder after the stop
word must be optional whitespace followed by an optional configured
trailing filler, ending the string. -/
def stopMatchTail (sufs : List (List Char)) (rest : List Char) : Bool :=
  (List.range (rest.length + 1)).any fun j =>
    allWS (rest.take j) && (rest.drop j = [] || sufs.any (fun suf => rest.drop j = suf))

/-- Middle test of a compiled stop pattern: after the optional leading
filler, optional whitespace, then the stop word, then the tail. -/
def stopMatchAfterPre (sufs : List (List Char)) (word rest : List Char) : Bool :=
  (List.range (rest.length + 1)).any fun k =>
    allWS (rest.take k) && listStartsWith (rest.drop k) word &&
      stopMatchTail sufs ((rest.drop k).drop word.length)

/-- Whether the compiled pattern
`^(?:pre)?\s*word\s*(?:suf)?$` accepts `s`: membership of `s` in the
pattern's language. -/
def stopPatternMatch (pres sufs : List (List Char)) (word s : List Char) : Bool :=
  (([] : List Char) :: pres).any fun pre =>
    listStartsWith s pre && stopMatchAfterPre sufs word (s.drop pre.length)

/-- Insertion into a list kept sorted by non-increasing length
(the stable order `sorted(key=len, reverse=True)` produces). -/
def insertByLenDesc (w : List Char) : List (List Char) → List (List Char)
  | [] => [w]
  | v :: vs => if v.length ≥ w.length then v :: insertByLenDesc w vs else w :: v :: vs

/-- `sorted(STOP_WORDS, key=len, reverse=True)`. -/
def sortByLenDesc : List (List Char) → List (List Char)
  | [] => []
  | w :: ws => insertByLenDesc w (sortByLenDesc ws)

/-- The loop over `self.patterns` in `is_stop`: first full match wins. -/
def stopFindPattern (cfg : StopCfg) (s : List Char) : Bool :=
  (sortByLenDesc cfg.stopWords).any fun w =>
    stopPatternMatch cfg.stopPrefixes cfg.stopSuffixes w s

/-- The fallback loop in `is_stop`: scan the configured words in order;
a contained word answers stop only when the text has at most six
whitespace-delimited tokens, otherwise the scan continues. -/
def stopFallbackLoop (words : List (List Char)) (norm : List Char) : Bool :=
  match words with
  | [] => false
  | w :: ws =>
      if containsSub norm w then
        if pySplitCount norm ≤ 6 then true else stopFallbackLoop ws norm
      else stopFallbackLoop ws norm

/-- `StopClassifier.is_stop`. -/
def is_stop (cfg : StopCfg) (text : List Char) : StopResult :=
  let normalized := stopNormalize cfg.lower text
  if normalized = [] ∨ normalized.length > 50 then stopMkResult text false
  else if stopFindPattern cfg normalized then
    stopMkResult text true CONFIDENCE_HIGH
  else if stopFallbackLoop cfg.stopWords normalized then
    stopMkResult text true CONFIDENCE_MEDIUM
  else stopMkResult text false

/-- The normalization step as the claim words it: lowercase and strip,
remove only *terminal* punctuation, collapse whitespace, strip.  Used to
compare the claim's reading with the code's normalization. -/
def claimStopNormalize (lower : Char → Char) (text : List Char) : List Char :=
  pyStrip (collapseWS ((pyStrip (text.map lower)).reverse.dropWhile
    (fun c => c = '!' ∨ c = '?' ∨ c = '.' ∨ c = ',' ∨ c = ':' ∨ c = ';')).reverse)

/-- The classifier as the claim describes it: identical branch structure,
but over the claim's normalization with terminal-only punctuation
stripping. -/
def claim_is_stop (cfg : StopCfg) (text : List Char) : StopResult :=
  let normalized := claimStopNormalize cfg.lower text
  if normalized = [] ∨ normalized.length > 50 then stopMkResult text false
  else if stopFindPattern cfg normalized then
    stopMkResult text true CONFIDENCE_HIGH
  else if stopFallbackLoop cfg.stopWords normalized then
    stopMkResult text true CONFIDENCE_MEDIUM
  else stopMkResult text false

/-! ### Recording control (`mic_driver/recording_control.py`)

The two module-level `threading.Event` flags, with the atomic
read-and-reset of `should_clear_buffer`. -/

/-- The two cross-thread signals: `_recording_paused` and
`_need_clear_buffer`. -/
structure Flags where
  paused : Bool
  clearBuffer : Bool
deriving DecidableEq, Repr

/-- `recording_control.pause_recording`. -/
def pause_recording (f : Flags) : Flags := { f with paused := true }

/-- `recording_control.resume_recording`: set the clear-buffer flag,
then clear the pause flag. -/
def resume_recording (_f : Flags) : Flags := { paused := false, clearBuffer := true }

/-- `recording_control.is_recording_paused`. -/
def is_recording_paused (f : Flags) : Bool := f.paused

/-- `recording_control.should_clear_buffer`: read and reset. -/
def should_clear_buffer (f : Flags) : Bool × Flags :=
  (f.clearBuffer, { f with clearBuffer := false })

/-! ### Segmentation engine (`mic_driver/recording.py`)

One iteration of the `while True` body of `run_recording_loop` is
embedded as a step function over the loop's mutable state.  Everything
the iteration obtains from outside — the frame read, the wall-clock
times, the enhancement outcome and the callback's behaviour (including
whatever the callback does to the control flags before returning) —
is packaged in `LoopEnv`.  Times are rationals.

`POST_RESUME_IGNORE_MS` is imported by the source but missing from
`config.py`; the derived frame count is the parameter `graceFrames`
of the step function (no claim depends on its value). -/

/-- `config.RATE`. -/
def RATE : ℕ := 48000

/-- `config.FRAME_DURATION_MS`. -/
def FRAME_DURATION_MS : ℕ := 30

/-- `config.FRAME_SIZE = int(RATE * FRAME_DURATION_MS / 1000)`. -/
def FRAME_SIZE : ℕ := RATE * FRAME_DURATION_MS / 1000

/-- `config.SAMPLE_WIDTH`. -/
def SAMPLE_WIDTH : ℕ := 2

/-- `recording.EXPECTED_FRAME_SIZE = FRAME_SIZE * SAMPLE_WIDTH`. -/
def EXPECTED_FRAME_SIZE : ℕ := FRAME_SIZE * SAMPLE_WIDTH

/-- `config.PRE_BUFFER_FRAMES = PRE_BUFFER_MS // FRAME_DURATION_MS`. -/
def PRE_BUFFER_FRAMES : ℕ := 500 / FRAME_DURATION_MS

/-- `config.SILENCE_LIMIT` (seconds). -/
def SILENCE_LIMIT : ℚ := 1

/-- `config.SILENCE_EXIT` (seconds). -/
def SILENCE_EXIT : ℚ := 35

/-- `config.MAX_RECORDING_SECONDS`. -/
def MAX_RECORDING_SECONDS : ℚ := 30

/-- `recording.SILENCE_FRAMES_THRESHOLD =
int(SILENCE_LIMIT * RATE / FRAME_SIZE)`. -/
def SILENCE_FRAMES_THRESHOLD : ℕ :=
  (Int.toNat ⌊SILENCE_LIMIT * ((RATE : ℚ) / (FRAME_SIZE : ℚ))⌋)

/-- A raw PCM frame: its byte string, as a list of byte values. -/
abbrev ByteFrame := List ℕ

/-- The mutable state of `run_recording_loop`, extended with the shared
control flags and the hardware stream's active bit. -/
structure EngineState where
  flags : Flags
  streamActive : Bool
  preBuffer : List ByteFrame
  recordedFrames : List ByteFrame
  recording : Bool
  speechEndTime : Option ℚ
  recordingStartTime : Option ℚ
  lastResult : Option ℕ
  stopRequested : Bool
  consecutiveSilenceFrames : ℕ
  wasPaused : Bool
  ignoreFramesRemaining : ℕ

/-- Outcome of the `stream.read` call for one iteration. -/
inductive ReadOutcome where
  | readFail
  | readOk (frame : ByteFrame) (speech : Bool)

/-- Behaviour of the caller-supplied utterance callback on one
invocation: it may raise, or return a stop-request boolean. -/
inductive CbOutcome where
  | cbRaise
  | cbReturn (stop : Bool)

/-- Everything one iteration obtains from outside the loop state. -/
structure LoopEnv where
  /-- Result of `stream.read(FRAME_SIZE, ...)`. -/
  read : ReadOutcome
  /-- `time.time()` at the top of frame processing (`current_time`). -/
  now : ℚ
  /-- `time.time()` inside `_process_and_reset`. -/
  tFinal : ℚ
  /-- Outcome of `enhance_utterance`: `none` models a raise. -/
  enh : Option ℕ
  /-- Whether a callback was supplied (`on_utterance is not None`). -/
  hasCallback : Bool
  /-- The callback's return/raise behaviour. -/
  cbOut : CbOutcome
  /-- The net effect of the callback on the shared control flags
  (e.g. the production callback calls `resume_recording`). -/
  cbFlags : Flags → Flags

/-- `deque(maxlen=m).append`: push right, evicting from the left when
the bound is exceeded. -/
def pushEvict (m : ℕ) (l : List ByteFrame) (x : ByteFrame) : List ByteFrame :=
  let grown := l ++ [x]
  if m < grown.length then grown.drop (grown.length - m) else grown

/-- `_reset_recording_state`: clear both buffers and the accumulation
state.  (`speech_end_time` and `was_paused` are untouched.) -/
def resetRecordingState (s : EngineState) : EngineState :=
  { s with preBuffer := [], recordedFrames := [], recording := false,
           recordingStartTime := none, consecutiveSilenceFrames := 0 }

/-- The body of `_process_and_reset` before its `finally` clause: stamp
`speech_end_time`, pause and stop the stream, then (unless nothing was
recorded, or enhancement raises) record the enhancement result, invoke
the callback and honour its stop request (a raising callback is caught
like a failing enhancement). -/
def processCore (s : EngineState) (env : LoopEnv) : EngineState :=
  let s := { s with speechEndTime := some env.tFinal,
                    flags := pause_recording s.flags, streamActive := false }
  if s.recordedFrames = [] then s
  else
    match env.enh with
    | none => s
    | some v =>
        let s := { s with lastResult := some v }
        if env.hasCallback then
          let s := { s with flags := env.cbFlags s.flags }
          match env.cbOut with
          | .cbRaise => s
          | .cbReturn stop => { s with stopRequested := s.stopRequested || stop }
        else s

/-- `_process_and_reset`: the body above followed by the
`finally: _reset_recording_state()`, which runs on every exit path. -/
def processAndReset (s : EngineState) (env : LoopEnv) : EngineState :=
  resetRecordingState (processCore s env)

/-- How one iteration of the loop ends: continue with a new state,
return `None` at the idle-exit check, or return `last_result` after the
callback requested termination. -/
inductive StepResult where
  | next (s : EngineState)
  | exitIdle (s : EngineState)
  | exitStop (s : EngineState) (r : Option ℕ)

/-- The trailing idle-exit check (lines 232-236): reached only by
iterations that fall through without `continue`. -/
def idleCheck (s : EngineState) (now : ℚ) : StepResult :=
  if !s.recording && (match s.speechEndTime with
      | some t => decide (now - t > SILENCE_EXIT)
      | none => false) then
    .exitIdle s
  else .next s

/-- Shared tail of the two finalization sites: run
`_process_and_reset`, return `last_result` if the callback requested a
stop, otherwise mark `was_paused` and continue. -/
def finalizeStep (s : EngineState) (env : LoopEnv) : StepResult :=
  let s1 := processAndReset s env
  if s1.stopRequested then .exitStop s1 s1.lastResult
  else .next { s1 with wasPaused := true }

/-- One iteration of the `while True` body of `run_recording_loop`.
`graceFrames` is `POST_RESUME_IGNORE_FRAMES`. -/
def step (graceFrames : ℕ) (s : EngineState) (env : LoopEnv) : StepResult :=
  if is_recording_paused s.flags then
    .next { s with streamActive := false, wasPaused := true }
  else
    let (clearFlag, flags1) := should_clear_buffer s.flags
    let s := { s with flags := flags1 }
    if s.wasPaused || clearFlag then
      .next { s with wasPaused := false, preBuffer := [], recordedFrames := [],
                     recording := false, recordingStartTime := none,
                     consecutiveSilenceFrames := 0, speechEndTime := none,
                     ignoreFramesRemaining := graceFrames, streamActive := true }
    else
      match env.read with
      | .readFail => .next s
      | .readOk frame speech =>
        if frame.length ≠ EXPECTED_FRAME_SIZE then .next s
        else if 0 < s.ignoreFramesRemaining then
          .next { s with ignoreFramesRemaining := s.ignoreFramesRemaining - 1 }
        else
          let s := if s.recording = false then
                     { s with preBuffer := pushEvict PRE_BUFFER_FRAMES s.preBuffer frame }
                   else s
          if speech then
            let s := { s with consecutiveSilenceFrames := 0 }
            let s := if s.recording = false then
                       { s with recording := true, recordingStartTime := some env.now,
                                recordedFrames := s.recordedFrames ++ s.preBuffer,
                                speechEndTime := none }
                     else s
            if (match s.recordingStartTime with
                | some t => !(decide (t = 0)) && decide (env.now - t > MAX_RECORDING_SECONDS)
                | none => false) then
              finalizeStep s env
            else
              idleCheck { s with recordedFrames := s.recordedFrames ++ [frame] } env.now
          else
            if s.recording then
              let s := { s with consecutiveSilenceFrames := s.consecutiveSilenceFrames + 1 }
              if SILENCE_FRAMES_THRESHOLD ≤ s.consecutiveSilenceFrames then
                finalizeStep s env
              else idleCheck s env.now
            else idleCheck s env.now

/-- The loop state as initialized in lines 49-56 and 103-104, before the
first iteration; the shared flags are whatever the module-level events
hold when the loop starts. -/
def initialState (f : Flags) : EngineState :=
  { flags := f, streamActive := true, preBuffer := [], recordedFrames := [],
    recording := false, speechEndTime := none, recordingStartTime := none,
    lastResult := none, stopRequested := false, consecutiveSilenceFrames := 0,
    wasPaused := false, ignoreFramesRemaining := 0 }

/-- The invariant behind the dead idle-exit check: `speech_end_time` is
only ever non-`None` in the window where `was_paused` has been set, and
that window always ends in the reset that clears it. -/
def IdleExitInv (s : EngineState) : Prop :=
  s.wasPaused = true ∨ s.speechEndTime = none

/-! ## Theorems -/

/-- `convertAll` only answers `ok` with one command per slot. -/
theorem convertAll_ok_length (fs : ℚ → String) :
    ∀ (l : List Slot) (res : List String), convertAll fs l = .ok res → res.length = l.length := by
  intro l
  induction l with
  | nil =>
      intro res h
      simp only [convertAll] at h
      cases h
      rfl
  | cons s rest ih =>
      intro res h
      simp only [convertAll] at h
      cases hcmd : slot_to_command fs s with
      | error e => rw [hcmd] at h; cases h
      | ok c =>
          rw [hcmd] at h
          cases hrest : convertAll fs rest with
          | error e => rw [hrest] at h; cases h
          | ok cs =>
              rw [hrest] at h
              cases h
              simp [ih cs hrest]

/-- `convertAll` fails with the error of the first failing slot. -/
theorem convertAll_first_error (fs : ℚ → String) :
    ∀ (pre : List Slot) (slot : Slot) (post : List Slot) (e : String),
      (∀ x ∈ pre, ∃ c, slot_to_command fs x = .ok c) →
      slot_to_command fs slot = .error e →
      convertAll fs (pre ++ slot :: post) = .error e := by
  intro pre
  induction pre with
  | nil =>
      intro slot post e _ hslot
      simp only [List.nil_append, convertAll, hslot]
  | cons x xs ih =>
      intro slot post e hpre hslot
      obtain ⟨c, hc⟩ := hpre x (List.mem_cons_self x xs)
      have ihe := ih slot post e (fun y hy => hpre y (List.mem_cons_of_mem x hy)) hslot
      simp only [List.cons_append, convertAll, hc]
      rw [show xs.append (slot :: post) = xs ++ slot :: post from rfl, ihe]
      rfl

/-- C3: `slots_to_command` errors on the empty list; on a non-empty list
it fills type-specific defaults, converts every slot with the first
failure aborting the whole conversion (never a partial command), and
joins `"$SEQ;"`, the `";"`-separated `tok,value` pairs and `";STOP\n"`,
formatting whole numbers without a decimal point; in particular a bare
forwards move converts to `"$SEQ;FWD,1;STOP\n"`. -/
theorem slots_to_command_meets_spec (fs : ℚ → String) :
    slots_to_command fs [] = .error "Slots array is empty"
    ∧ slots_to_command fs
        [{ type := some "move", direction := some "forwards",
           distance := none, angle := none }] = .ok "$SEQ;FWD,1;STOP\n"
    ∧ (∀ slots out, slots_to_command fs slots = .ok out →
        ∃ commands, convertAll fs (normalize_slots slots) = .ok commands
          ∧ commands.length = slots.length
          ∧ out = "$SEQ;" ++ String.intercalate ";" commands ++ ";STOP\n")
    ∧ (∀ slots pre slot post e, normalize_slots slots = pre ++ slot :: post →
        (∀ x ∈ pre, ∃ c, slot_to_command fs x = .ok c) →
        slot_to_command fs slot = .error e →
        slots_to_command fs slots = .error e) := by
  refine ⟨rfl, rfl, ?_, ?_⟩
  · intro slots out h
    by_cases hne : slots = []
    · subst hne; cases h
    · simp only [slots_to_command, if_neg hne] at h
      cases hconv : convertAll fs (normalize_slots slots) with
      | error e => rw [hconv] at h; cases h
      | ok commands =>
          rw [hconv] at h
          cases h
          refine ⟨commands, rfl, ?_, rfl⟩
          have hlen := convertAll_ok_length fs (normalize_slots slots) commands hconv
          simpa [normalize_slots] using hlen
  · intro slots pre slot post e hsplit hpre hslot
    have hne : slots ≠ [] := by
      intro hs
      subst hs
      simp only [normalize_slots, List.map_nil] at hsplit
      exact absurd hsplit.symm (by simp)
    simp only [slots_to_command, if_neg hne, hsplit,
      convertAll_first_error fs pre slot post e hpre hslot]

/-- Witness for C3: a slot with an unknown turn direction makes the whole
conversion fail with the direction named, exercising the first-failure
clause at a concrete input. -/
theorem slots_to_command_meets_spec_witness :
    slots_to_command (fun _ => "")
      [{ type := some "turn", direction := some "up",
         distance := none, angle := none }] = .error "Unknown turn direction: up" :=
  (slots_to_command_meets_spec (fun _ => "")).2.2.2
    [{ type := some "turn", direction := some "up", distance := none, angle := none }]
    [] { type := some "turn", direction := some "up", distance := none, angle := some (.float 90) }
    [] "Unknown turn direction: up" rfl (by intro x hx; cases hx) rfl

/-- C5: `convert_result` is total on the modelled result domain: for
intent `"navigate"` it stores the converted command, turning a
conversion failure into `formatted_command = None` plus a sibling
`command_error`; for intent `"stop"` it stores the literal
`"$SEQ,STOP\n"`; every other intent gets the result back unchanged. -/
theorem convert_result_meets_spec (fs : ℚ → String) (r : CResult) :
    (r.intent = some "navigate" →
      (∀ cmd, slots_to_command_dyn fs (r.slots.getD (.plist [])) = .ok cmd →
          convert_result fs r = { r with formatted_command := some (some cmd) })
      ∧ (∀ e, slots_to_command_dyn fs (r.slots.getD (.plist [])) = .error e →
          convert_result fs r =
            { r with formatted_command := some none, command_error := some e }))
    ∧ (r.intent = some "stop" →
        convert_result fs r = { r with formatted_command := some (some "$SEQ,STOP\n") })
    ∧ (r.intent ≠ some "navigate" → r.intent ≠ some "stop" →
        convert_result fs r = r) := by
  refine ⟨?_, ?_, ?_⟩
  · intro hnav
    constructor
    · intro cmd hok
      simp only [convert_result, if_pos hnav, hok]
    · intro e herr
      simp only [convert_result, if_pos hnav, herr]
  · intro hstop
    have hnav : r.intent ≠ some "navigate" := by rw [hstop]; decide
    simp only [convert_result, if_neg hnav, if_pos hstop]
  · intro hnav hstop
    simp only [convert_result, if_neg hnav, if_neg hstop]

/-- Witness for C5: a navigate result with an empty slots list gets
`formatted_command = None` and the "empty slots" message captured in
`command_error`; nothing is raised. -/
theorem convert_result_meets_spec_witness :
    convert_result (fun _ => "")
      { intent := some "navigate", confidence := none, slots := some (.plist []),
        response := none, raw_text := none, formatted_command := none,
        command_error := none }
      = { intent := some "navigate", confidence := none, slots := some (.plist []),
          response := none, raw_text := none, formatted_command := some none,
          command_error := some "Slots array is empty" } :=
  ((convert_result_meets_spec (fun _ => "")
      { intent := some "navigate", confidence := none, slots := some (.plist []),
        response := none, raw_text := none, formatted_command := none,
        command_error := none }).1 rfl).2 "Slots array is empty" rfl

/-- C4: whenever the numeric confidence is strictly below the router's
threshold, `route` answers the fixed fallback apology with `passed =
false`, no command and no action result, for every intent and route
type; the effect log shows that neither the converter nor any action
handler ran (at most the fallback phrase is spoken). -/
theorem route_low_confidence_fallback (threshold : ℚ)
    (handlers : String → Option (CResult → ℤ)) (getResp : String → String → String)
    (fs : ℚ → String) (r : CResult) (use_tts : Bool)
    (h : get_confidence_value r < threshold) :
    route threshold handlers getResp fs r use_tts =
      .ok ({ intent := r.intent.getD "unknown",
             confidence := get_confidence_value r,
             passed := false,
             route := get_route_type (r.intent.getD "unknown"),
             response := FALLBACK_RESPONSE, command := none, action_result := none },
           if use_tts then [REffect.ttsSpoken FALLBACK_RESPONSE] else []) := by
  have hpass : decide (get_confidence_value r ≥ threshold) = false :=
    decide_eq_false (not_le.mpr h)
  simp only [route, check_confidence_with_value, hpass, Bool.not_false, if_true,
    pure, Except.pure, bind, Except.bind]
  have hresp : (FALLBACK_RESPONSE = "") = False := by
    simp [FALLBACK_RESPONSE]
  by_cases hu : use_tts
  · simp [hu, FALLBACK_RESPONSE]
  · simp [hu]

/-- Witness for C4: a greeting result carrying confidence `0.5` against
the default threshold `0.8` yields exactly the fallback decision with
an empty effect log (speech output disabled). -/
theorem route_low_confidence_fallback_witness :
    route CONFIDENCE_THRESHOLD (fun _ => none) (fun _ _ => "") (fun _ => "")
      { intent := some "greeting", confidence := some (.num (1/2)), slots := none,
        response := none, raw_text := none, formatted_command := none,
        command_error := none } false =
      .ok ({ intent := ({ intent := some "greeting", confidence := some (.num (1/2)),
                          slots := none, response := none, raw_text := none,
                          formatted_command := none,
                          command_error := none } : CResult).intent.getD "unknown",
             confidence := get_confidence_value
               { intent := some "greeting", confidence := some (.num (1/2)), slots := none,
                 response := none, raw_text := none, formatted_command := none,
                 command_error := none },
             passed := false,
             route := get_route_type
               (({ intent := some "greeting", confidence := some (.num (1/2)), slots := none,
                   response := none, raw_text := none, formatted_command := none,
                   command_error := none } : CResult).intent.getD "unknown"),
             response := FALLBACK_RESPONSE, command := none, action_result := none },
           if false then [REffect.ttsSpoken FALLBACK_RESPONSE] else []) :=
  route_low_confidence_fallback CONFIDENCE_THRESHOLD (fun _ => none) (fun _ _ => "")
    (fun _ => "")
    { intent := some "greeting", confidence := some (.num (1/2)), slots := none,
      response := none, raw_text := none, formatted_command := none,
      command_error := none } false
    (by norm_num [get_confidence_value, CONFIDENCE_THRESHOLD])

/-- C7 as stated fails on the code: routing a passing `"tracking-person"`
result with no registered handler does give `action_result = None`, but
the response is the templated confirmation phrase, not the empty
string. -/
theorem route_no_handler_counterexample :
    route CONFIDENCE_THRESHOLD (fun _ => none) (fun _ _ => "") (fun _ => "")
      { intent := some "tracking-person", confidence := some (.str "high"), slots := none,
        response := none, raw_text := none, formatted_command := none,
        command_error := none } false =
      .ok ({ intent := "tracking-person", confidence := 1, passed := true,
             route := "action", response := "Đang theo dõi bạn.", command := none,
             action_result := none }, [])
    ∧ ("Đang theo dõi bạn." : String) ≠ "" := by
  refine ⟨?_, by decide⟩
  have hge : decide (get_confidence_value
      { intent := some "tracking-person", confidence := some (.str "high"), slots := none,
        response := none, raw_text := none, formatted_command := none,
        command_error := none } ≥ CONFIDENCE_THRESHOLD) = true := by
    rw [decide_eq_true_eq]
    norm_num [get_confidence_value, CONFIDENCE_HIGH, CONFIDENCE_THRESHOLD]
  simp only [route, check_confidence_with_value, hge, Bool.not_true, if_false,
    pure, Except.pure, bind, Except.bind]
  norm_num [get_confidence_value, CONFIDENCE_HIGH, get_route_type, COMMAND_INTENTS,
    RESPONSE_INTENTS, ACTION_INTENTS, execute_action, action_response]
  simp only [show ("tracking-person" = "navigate") = False by simp,
    show ("tracking-person" = "stop") = False by simp,
    show ("tracking-person" = "greeting") = False by simp,
    show ("tracking-person" = "noise") = False by simp,
    show ("tracking-person" = "conversation") = False by simp,
    show ("tracking-person" = "unknown") = False by simp,
    show ("action" = "command") = False by simp,
    show ("action" = "response") = False by simp,
    not_false_eq_true, if_true, if_false, or_self, or_false, false_or,
    false_implies, true_implies, ite_false, ite_true]

/-- A string ending in a period after a non-empty stem is non-empty. -/
theorem append_dot_ne_empty (pre x : String) (h : 0 < pre.length) :
    (pre ++ x ++ ".") ≠ "" := by
  intro he
  have hlen := congrArg String.length he
  simp only [String.length_append] at hlen
  have : String.length "." = 1 := rfl
  have hz : String.length "" = 0 := rfl
  omega

/-- C7 amended: with a passing action intent and no registered handler,
`route` returns `action_result = None` together with that intent's
templated confirmation phrase, which is non-empty for every configured
action intent (slot data, when read, is dict-shaped as the templates
expect). -/
theorem route_no_handler_action (threshold : ℚ)
    (handlers : String → Option (CResult → ℤ)) (getResp : String → String → String)
    (fs : ℚ → String) (r : CResult) (use_tts : Bool)
    (hint : r.intent.getD "unknown" ∈ ACTION_INTENTS)
    (hpass : get_confidence_value r ≥ threshold)
    (hhandler : handlers (r.intent.getD "unknown") = none)
    (hslots : ∀ l, r.slots ≠ some (.plist l)) :
    ∃ resp, action_response (r.intent.getD "unknown") r = .ok resp ∧ resp ≠ ""
      ∧ route threshold handlers getResp fs r use_tts =
          .ok ({ intent := r.intent.getD "unknown",
                 confidence := get_confidence_value r, passed := true,
                 route := "action", response := resp, command := none,
                 action_result := none },
               if use_tts then [REffect.ttsSpoken resp] else []) := by
  have hcases : r.intent.getD "unknown" = "tracking-person"
      ∨ r.intent.getD "unknown" = "go_to_object"
      ∨ r.intent.getD "unknown" = "go_to_location" := by
    simpa [ACTION_INTENTS] using hint
  have haction : get_route_type (r.intent.getD "unknown") = "action" := by
    rcases hcases with h1 | h1 | h1 <;>
      simp [get_route_type, COMMAND_INTENTS, RESPONSE_INTENTS, ACTION_INTENTS, h1]
  have hdict : r.slots = none ∨ ∃ d, r.slots = some (.pdict d) := by
    cases hs : r.slots with
    | none => exact Or.inl rfl
    | some v =>
        cases v with
        | plist l => exact absurd hs (hslots l)
        | pdict d => exact Or.inr ⟨d, rfl⟩
  have hresp : ∃ resp, action_response (r.intent.getD "unknown") r = .ok resp
      ∧ resp ≠ "" := by
    rcases hcases with h1 | h1 | h1
    · exact ⟨"Đang theo dõi bạn.", by simp [action_response, h1], by decide⟩
    · rcases hdict with hs | ⟨d, hs⟩
      · exact ⟨"Đang đi tới " ++ "đó" ++ ".",
          by simp [action_response, h1, hs],
          append_dot_ne_empty _ _ (by decide)⟩
      · exact ⟨"Đang đi tới " ++ ((d.lookup "object").getD "đó") ++ ".",
          by simp [action_response, h1, hs],
          append_dot_ne_empty _ _ (by decide)⟩
    · rcases hdict with hs | ⟨d, hs⟩
      · exact ⟨"Đang đi tới " ++ "đó" ++ ".",
          by simp [action_response, h1, hs],
          append_dot_ne_empty _ _ (by decide)⟩
      · exact ⟨"Đang đi tới " ++ ((d.lookup "location").getD "đó") ++ ".",
          by simp [action_response, h1, hs],
          append_dot_ne_empty _ _ (by decide)⟩
  obtain ⟨resp, hok, hne⟩ := hresp
  refine ⟨resp, hok, hne, ?_⟩
  have hcmd : (get_route_type (r.intent.getD "unknown") = "command") = False := by
    simp [haction]
  have hrsp : (get_route_type (r.intent.getD "unknown") = "response") = False := by
    simp [haction]
  simp only [route, check_confidence_with_value, decide_eq_true hpass, Bool.not_true,
    if_false, hcmd, hrsp, haction, if_true, execute_action, hhandler, hok,
    pure, Except.pure, bind, Except.bind]
  simp [hne]

/-- Witness for the amended C7: a passing `"tracking-person"` result with
no registered handler and no slots entry. -/
theorem route_no_handler_action_witness :
    ∃ resp, action_response
        (({ intent := some "tracking-person", confidence := some (.str "high"),
            slots := none, response := none, raw_text := none, formatted_command := none,
            command_error := none } : CResult).intent.getD "unknown")
        { intent := some "tracking-person", confidence := some (.str "high"),
          slots := none, response := none, raw_text := none, formatted_command := none,
          command_error := none } = .ok resp ∧ resp ≠ ""
      ∧ route CONFIDENCE_THRESHOLD (fun _ => none) (fun _ _ => "") (fun _ => "")
          { intent := some "tracking-person", confidence := some (.str "high"),
            slots := none, response := none, raw_text := none, formatted_command := none,
            command_error := none } true =
          .ok ({ intent := ({ intent := some "tracking-person",
                              confidence := some (.str "high"), slots := none,
                              response := none, raw_text := none, formatted_command := none,
                              command_error := none } : CResult).intent.getD "unknown",
                 confidence := get_confidence_value
                   { intent := some "tracking-person", confidence := some (.str "high"),
                     slots := none, response := none, raw_text := none,
                     formatted_command := none, command_error := none },
                 passed := true, route := "action", response := resp, command := none,
                 action_result := none },
               if true then [REffect.ttsSpoken resp] else []) :=
  route_no_handler_action CONFIDENCE_THRESHOLD (fun _ => none) (fun _ _ => "")
    (fun _ => "")
    { intent := some "tracking-person", confidence := some (.str "high"), slots := none,
      response := none, raw_text := none, formatted_command := none,
      command_error := none } true
    (by simp [ACTION_INTENTS])
    (by norm_num [get_confidence_value, CONFIDENCE_HIGH, CONFIDENCE_THRESHOLD])
    rfl
    (by intro l h; cases h)

/-- C8: `parse_json_response` is total; when the fence-preprocessed
payload parses, the parsed value is returned, and otherwise the exact
typed fallback comes back with the original reply preserved in
`raw_text`. -/
theorem parse_json_response_meets_spec {α : Type} (jp : String → Option α)
    (text : String) :
    (∀ v, jp (fencePreprocess text) = some v → parse_json_response jp text = .inl v)
    ∧ (jp (fencePreprocess text) = none →
        parse_json_response jp text =
          .inr { intent := some "unknown", confidence := some (.num 0),
                 slots := some (.pdict []), response := some "", raw_text := some text,
                 formatted_command := none, command_error := none }) := by
  constructor
  · intro v hv
    simp only [parse_json_response, fencePreprocess] at *
    rw [hv]
  · intro hn
    simp only [parse_json_response, fencePreprocess] at *
    rw [hn]
    rfl

/-- Witness for C8: an unparseable reply returns the typed fallback with
the raw reply attached, and a parseable reply returns the parsed value. -/
theorem parse_json_response_meets_spec_witness :
    parse_json_response (fun _ => (none : Option ℕ)) "not json" =
      .inr { intent := some "unknown", confidence := some (.num 0),
             slots := some (.pdict []), response := some "", raw_text := some "not json",
             formatted_command := none, command_error := none } :=
  (parse_json_response_meets_spec (fun _ => (none : Option ℕ)) "not json").2 rfl

/-- Inserting into the length-sorted list is a permutation of consing. -/
theorem insertByLenDesc_perm (w : List Char) :
    ∀ l : List (List Char), (insertByLenDesc w l).Perm (w :: l) := by
  intro l
  induction l with
  | nil => simp [insertByLenDesc]
  | cons v vs ih =>
      simp only [insertByLenDesc]
      split_ifs with h
      · exact (ih.cons v).trans (List.Perm.swap w v vs)
      · exact List.Perm.refl _

/-- Sorting the stop words by non-increasing length permutes them. -/
theorem sortByLenDesc_perm :
    ∀ ws : List (List Char), (sortByLenDesc ws).Perm ws := by
  intro ws
  induction ws with
  | nil => simp [sortByLenDesc]
  | cons w vs ih =>
      simp only [sortByLenDesc]
      exact (insertByLenDesc_perm w (sortByLenDesc vs)).trans (ih.cons w)

/-- `any` over the sorted stop words agrees with `any` over the
configured order. -/
theorem sortByLenDesc_any (ws : List (List Char)) (p : List Char → Bool) :
    (sortByLenDesc ws).any p = ws.any p := by
  have hperm := sortByLenDesc_perm ws
  cases hb : ws.any p with
  | true =>
      obtain ⟨x, hx, hpx⟩ := List.any_eq_true.mp hb
      exact List.any_eq_true.mpr ⟨x, hperm.mem_iff.mpr hx, hpx⟩
  | false =>
      cases h : (sortByLenDesc ws).any p with
      | false => rfl
      | true =>
          obtain ⟨x, hx, hpx⟩ := List.any_eq_true.mp h
          have hT : ws.any p = true := List.any_eq_true.mpr ⟨x, hperm.mem_iff.mp hx, hpx⟩
          cases hb.symm.trans hT

/-- A text with more than six tokens never answers stop through the
fallback scan. -/
theorem stopFallbackLoop_of_gt (n : List Char) (h : ¬ pySplitCount n ≤ 6) :
    ∀ ws, stopFallbackLoop ws n = false := by
  intro ws
  induction ws with
  | nil => rfl
  | cons w vs ih =>
      simp only [stopFallbackLoop]
      by_cases hc : containsSub n w = true
      · rw [if_pos hc, if_neg h]
        exact ih
      · rw [if_neg hc]
        exact ih

/-- A text with at most six tokens answers stop through the fallback
scan exactly when some configured stop word is contained in it. -/
theorem stopFallbackLoop_of_le (n : List Char) (h : pySplitCount n ≤ 6) :
    ∀ ws, stopFallbackLoop ws n = ws.any (fun w => containsSub n w) := by
  intro ws
  induction ws with
  | nil => rfl
  | cons w vs ih =>
      simp only [stopFallbackLoop, List.any_cons]
      by_cases hc : containsSub n w = true
      · rw [if_pos hc, if_pos h, hc]
        simp
      · rw [if_neg hc, ih]
        have hcf : containsSub n w = false := Bool.not_eq_true _ ▸ eq_false_of_ne_true hc
        simp [hcf]

/-- C6 amended: `is_stop` answers not_stop when the code's normalization
(lowercase, strip, every `!?.,:;` character removed anywhere, whitespace
collapsed) is empty or longer than 50 characters; else stop with high
confidence when some compiled anchored pattern accepts the normalized
text; else stop with medium confidence when some configured stop word is
contained in it and it has at most six whitespace-delimited tokens; else
not_stop. -/
theorem is_stop_characterization (cfg : StopCfg) (text : List Char) :
    (stopNormalize cfg.lower text = [] ∨ (stopNormalize cfg.lower text).length > 50 →
        is_stop cfg text = stopMkResult text false)
    ∧ (¬(stopNormalize cfg.lower text = [] ∨ (stopNormalize cfg.lower text).length > 50) →
        (∃ w ∈ cfg.stopWords,
            stopPatternMatch cfg.stopPrefixes cfg.stopSuffixes w
              (stopNormalize cfg.lower text) = true) →
        is_stop cfg text = stopMkResult text true CONFIDENCE_HIGH)
    ∧ (¬(stopNormalize cfg.lower text = [] ∨ (stopNormalize cfg.lower text).length > 50) →
        (∀ w ∈ cfg.stopWords,
            stopPatternMatch cfg.stopPrefixes cfg.stopSuffixes w
              (stopNormalize cfg.lower text) = false) →
        (∃ w ∈ cfg.stopWords, containsSub (stopNormalize cfg.lower text) w = true) →
        pySplitCount (stopNormalize cfg.lower text) ≤ 6 →
        is_stop cfg text = stopMkResult text true CONFIDENCE_MEDIUM)
    ∧ (¬(stopNormalize cfg.lower text = [] ∨ (stopNormalize cfg.lower text).length > 50) →
        (∀ w ∈ cfg.stopWords,
            stopPatternMatch cfg.stopPrefixes cfg.stopSuffixes w
              (stopNormalize cfg.lower text) = false) →
        ((∀ w ∈ cfg.stopWords, containsSub (stopNormalize cfg.lower text) w = false)
          ∨ ¬ pySplitCount (stopNormalize cfg.lower text) ≤ 6) →
        is_stop cfg text = stopMkResult text false) := by
  refine ⟨?_, ?_, ?_, ?_⟩
  · intro h
    simp only [is_stop]
    rw [if_pos h]
  · intro h hex
    have hfind : stopFindPattern cfg (stopNormalize cfg.lower text) = true := by
      unfold stopFindPattern
      rw [sortByLenDesc_any]
      obtain ⟨w, hw, hpw⟩ := hex
      exact List.any_eq_true.mpr ⟨w, hw, hpw⟩
    simp only [is_stop]
    rw [if_neg h, if_pos hfind]
  · intro h hall hex hle
    have hfind : stopFindPattern cfg (stopNormalize cfg.lower text) = false := by
      unfold stopFindPattern
      rw [sortByLenDesc_any]
      by_contra hne
      have hT : cfg.stopWords.any
          (fun w => stopPatternMatch cfg.stopPrefixes cfg.stopSuffixes w
            (stopNormalize cfg.lower text)) = true := by
        cases hq : cfg.stopWords.any (fun w => stopPatternMatch cfg.stopPrefixes
            cfg.stopSuffixes w (stopNormalize cfg.lower text)) with
        | true => rfl
        | false => exact absurd hq hne
      obtain ⟨w, hw, hpw⟩ := List.any_eq_true.mp hT
      rw [hall w hw] at hpw
      exact absurd hpw (by simp)
    have hfb : stopFallbackLoop cfg.stopWords (stopNormalize cfg.lower text) = true := by
      rw [stopFallbackLoop_of_le _ hle]
      obtain ⟨w, hw, hcw⟩ := hex
      exact List.any_eq_true.mpr ⟨w, hw, hcw⟩
    simp only [is_stop]
    rw [if_neg h, if_neg (by simp [hfind]), if_pos hfb]
  · intro h hall hnone
    have hfind : stopFindPattern cfg (stopNormalize cfg.lower text) = false := by
      unfold stopFindPattern
      rw [sortByLenDesc_any]
      by_contra hne
      have hT : cfg.stopWords.any
          (fun w => stopPatternMatch cfg.stopPrefixes cfg.stopSuffixes w
            (stopNormalize cfg.lower text)) = true := by
        cases hq : cfg.stopWords.any (fun w => stopPatternMatch cfg.stopPrefixes
            cfg.stopSuffixes w (stopNormalize cfg.lower text)) with
        | true => rfl
        | false => exact absurd hq hne
      obtain ⟨w, hw, hpw⟩ := List.any_eq_true.mp hT
      rw [hall w hw] at hpw
      exact absurd hpw (by simp)
    have hfb : stopFallbackLoop cfg.stopWords (stopNormalize cfg.lower text) = false := by
      rcases hnone with hnc | hgt
      · by_cases hle : pySplitCount (stopNormalize cfg.lower text) ≤ 6
        · rw [stopFallbackLoop_of_le _ hle]
          cases hq : cfg.stopWords.any
              (fun w => containsSub (stopNormalize cfg.lower text) w) with
          | false => rfl
          | true =>
              obtain ⟨w, hw, hcw⟩ := List.any_eq_true.mp hq
              rw [hnc w hw] at hcw
              exact absurd hcw (by simp)
        · exact stopFallbackLoop_of_gt _ hle _
      · exact stopFallbackLoop_of_gt _ hgt _
    simp only [is_stop]
    rw [if_neg h, if_neg (by simp [hfind]), if_neg (by simp [hfb])]

/-- C6 as stated fails on the code: the claim's normalization strips only
*terminal* punctuation, but the code deletes the punctuation characters
everywhere.  With stop word `dừng`, the input `d.ừng` satisfies the
claim's not_stop conditions (its claim-normalization keeps the interior
period, matches no pattern and contains no stop word), yet the code
classifies it stop with high confidence. -/
theorem is_stop_counterexample :
    (is_stop ⟨["dừng".toList], ["hãy".toList], ["đi".toList], id⟩
        "d.ừng".toList).is_stop = true
    ∧ (claim_is_stop ⟨["dừng".toList], ["hãy".toList], ["đi".toList], id⟩
        "d.ừng".toList).is_stop = false := by
  constructor
  · rfl
  · rfl

/-- Witness for the amended C6: `dừng lại đi` has no full-pattern match
against stop word `dừng` (with leading filler `hãy`, trailing filler
`đi`) but contains the stop word within three tokens, so the classifier
answers stop with medium confidence. -/
theorem is_stop_characterization_witness :
    is_stop ⟨["dừng".toList], ["hãy".toList], ["đi".toList], id⟩ "dừng lại đi".toList
      = stopMkResult "dừng lại đi".toList true CONFIDENCE_MEDIUM :=
  (is_stop_characterization ⟨["dừng".toList], ["hãy".toList], ["đi".toList], id⟩
      "dừng lại đi".toList).2.2.1
    (by decide) (by decide) (by decide) (by decide)

/-- C9: resume is idempotent on the control flags — calling it twice in a
row leaves exactly the flag state one call leaves — and the engine's
next iteration after a resume (before any frame is read) performs the
reset exactly once: it consumes the clear flag and continues Armed with
empty pre-roll and utterance buffers, so no partially accumulated
utterance survives; the resulting `wasPaused = false` and
`clearBuffer = false` mean the following iteration does not reset
again. -/
theorem resume_twice_equals_once (g : ℕ) (s : EngineState) (env : LoopEnv) :
    resume_recording (resume_recording s.flags) = resume_recording s.flags
    ∧ step g { s with flags := resume_recording (resume_recording s.flags) } env
        = step g { s with flags := resume_recording s.flags } env
    ∧ step g { s with flags := resume_recording s.flags } env =
        .next { s with
                flags := { paused := false, clearBuffer := false },
                wasPaused := false, preBuffer := [], recordedFrames := [],
                recording := false, recordingStartTime := none,
                consecutiveSilenceFrames := 0, speechEndTime := none,
                ignoreFramesRemaining := g, streamActive := true } := by
  refine ⟨rfl, rfl, ?_⟩
  simp only [step, is_recording_paused, resume_recording, should_clear_buffer,
    Bool.or_true, if_true, Bool.false_eq_true, if_false]

/-- How an iteration treats a well-formed speech frame read in the Armed
state (no pause, no pending reset, no grace window): the frame first
joins the pre-roll, the whole updated pre-roll seeds the utterance, and
the frame is then appended once more. -/
theorem step_armed_speech (g : ℕ) (s : EngineState) (env : LoopEnv) (frame : ByteFrame)
    (hp : s.flags.paused = false) (hw : s.wasPaused = false)
    (hc : s.flags.clearBuffer = false) (hrec : s.recording = false)
    (hig : s.ignoreFramesRemaining = 0) (hread : env.read = .readOk frame true)
    (hlen : frame.length = EXPECTED_FRAME_SIZE) :
    step g s env =
      .next { s with
              flags := { paused := false, clearBuffer := false },
              preBuffer := pushEvict PRE_BUFFER_FRAMES s.preBuffer frame,
              recording := true, recordingStartTime := some env.now,
              recordedFrames := (s.recordedFrames
                ++ pushEvict PRE_BUFFER_FRAMES s.preBuffer frame) ++ [frame],
              speechEndTime := none, consecutiveSilenceFrames := 0 } := by
  have hmax : decide (env.now - env.now > MAX_RECORDING_SECONDS) = false := by
    rw [decide_eq_false_iff_not]
    norm_num [MAX_RECORDING_SECONDS]
  simp only [step, is_recording_paused, should_clear_buffer, hp, hw, hc, hrec, hig,
    hread, hlen, Bool.false_eq_true, if_false, Bool.or_self, ne_eq, not_true_eq_false,
    lt_irrefl, if_true, hmax, Bool.and_false, ite_true, ite_false]
  simp [idleCheck]

/-- C1 fails on the code: in the Armed state with pre-roll `[f0]`, a
well-formed speech frame `f1` seeds the utterance as `[f0, f1, f1]` —
`f1` first enters the pre-roll (the append precedes the speech check),
is copied out with it, and is then appended once more — instead of the
claimed `[f0, f1]`; the speech frame also sits in the pre-roll buffer
afterwards. -/
theorem seeded_utterance_duplicates_onset_frame :
    ∃ s1, step 0
      { flags := { paused := false, clearBuffer := false }, streamActive := true,
        preBuffer := [List.replicate 2880 0], recordedFrames := [],
        recording := false, speechEndTime := none, recordingStartTime := none,
        lastResult := none, stopRequested := false, consecutiveSilenceFrames := 0,
        wasPaused := false, ignoreFramesRemaining := 0 }
      { read := .readOk (List.replicate 2880 1) true, now := 100, tFinal := 100,
        enh := some 0, hasCallback := false, cbOut := .cbReturn false, cbFlags := id }
      = .next s1
    ∧ s1.recordedFrames =
        [List.replicate 2880 0, List.replicate 2880 1, List.replicate 2880 1]
    ∧ s1.preBuffer = [List.replicate 2880 0, List.replicate 2880 1]
    ∧ s1.recording = true := by
  have hpush : pushEvict PRE_BUFFER_FRAMES
      ([List.replicate 2880 0] : List ByteFrame) (List.replicate 2880 1) =
      [List.replicate 2880 0, List.replicate 2880 1] := by
    norm_num [pushEvict, PRE_BUFFER_FRAMES, FRAME_DURATION_MS]
  have hlen : (List.replicate 2880 (1 : ℕ) : ByteFrame).length = EXPECTED_FRAME_SIZE := by
    show (List.replicate 2880 (1 : ℕ)).length = EXPECTED_FRAME_SIZE
    rw [List.length_replicate]
    norm_num [EXPECTED_FRAME_SIZE, FRAME_SIZE, RATE, FRAME_DURATION_MS, SAMPLE_WIDTH]
  refine ⟨_, step_armed_speech 0 _ _ (List.replicate 2880 1)
    rfl rfl rfl rfl rfl rfl hlen, ?_, ?_, rfl⟩
  · show (([] : List ByteFrame) ++ pushEvict PRE_BUFFER_FRAMES
        ([List.replicate 2880 0] : List ByteFrame) (List.replicate 2880 1))
        ++ [List.replicate 2880 1] = _
    rw [List.nil_append, hpush]
    rfl
  · exact hpush

/-- A finalization that continues the loop leaves both buffers empty
(the `finally` reset ran). -/
theorem finalizeStep_next_clears (s : EngineState) (env : LoopEnv) :
    ∀ s1, finalizeStep s env = .next s1 →
      s1.recordedFrames = [] ∧ s1.preBuffer = [] := by
  intro s1 h
  unfold finalizeStep at h
  simp only [] at h
  split at h
  · cases h
  · cases h
    exact ⟨rfl, rfl⟩

/-- The idle-exit check never fires while the engine is recording. -/
theorem idleCheck_next_of_recording (s : EngineState) (now : ℚ)
    (h : s.recording = true) : idleCheck s now = .next s := by
  unfold idleCheck
  simp [h]

/-- The idle-exit check never fires when `speech_end_time` is `None`. -/
theorem idleCheck_next_of_none (s : EngineState) (now : ℚ)
    (h : s.speechEndTime = none) : idleCheck s now = .next s := by
  unfold idleCheck
  simp [h]

/-- Case analysis of one iteration while the engine is Active: any
continuing step leaves both buffers untouched, resets both to empty
(a reset or a finalization), or appends exactly the frame just read —
and then only when that frame was classified as speech — while the
pre-roll stays untouched. -/
theorem step_active_cases (g : ℕ) (s : EngineState) (env : LoopEnv)
    (hrec : s.recording = true) :
    ∀ s1, step g s env = .next s1 →
      (s1.recordedFrames = s.recordedFrames ∧ s1.preBuffer = s.preBuffer)
      ∨ (s1.recordedFrames = [] ∧ s1.preBuffer = [])
      ∨ (∃ frame, env.read = .readOk frame true
          ∧ s1.recordedFrames = s.recordedFrames ++ [frame]
          ∧ s1.preBuffer = s.preBuffer) := by
  intro s1 hstep
  unfold step at hstep
  by_cases hp : is_recording_paused s.flags = true
  · rw [if_pos hp] at hstep
    cases hstep
    exact Or.inl ⟨rfl, rfl⟩
  · rw [if_neg hp] at hstep
    simp only [should_clear_buffer] at hstep
    by_cases hr : (s.wasPaused || s.flags.clearBuffer) = true
    · rw [if_pos hr] at hstep
      cases hstep
      exact Or.inr (Or.inl ⟨rfl, rfl⟩)
    · rw [if_neg hr] at hstep
      cases henv : env.read with
      | readFail =>
          rw [henv] at hstep
          simp only [] at hstep
          cases hstep
          exact Or.inl ⟨rfl, rfl⟩
      | readOk frame speech =>
          rw [henv] at hstep
          simp only [] at hstep
          by_cases hlen : frame.length ≠ EXPECTED_FRAME_SIZE
          · rw [if_pos hlen] at hstep
            cases hstep
            exact Or.inl ⟨rfl, rfl⟩
          · rw [if_neg hlen] at hstep
            by_cases hig : 0 < s.ignoreFramesRemaining
            · rw [if_pos hig] at hstep
              cases hstep
              exact Or.inl ⟨rfl, rfl⟩
            · rw [if_neg hig] at hstep
              simp only [hrec,
                if_neg (show ¬((true : Bool) = false) by simp),
                if_pos (show (true : Bool) = true from rfl)] at hstep
              cases speech with
              | true =>
                  simp only [if_pos (show (true : Bool) = true from rfl)] at hstep
                  cases hrs : s.recordingStartTime with
                  | none =>
                      rw [hrs] at hstep
                      simp only [] at hstep
                      rw [if_neg (show ¬((false : Bool) = true) by simp)] at hstep
                      rw [idleCheck_next_of_recording _ _ rfl] at hstep
                      cases hstep
                      exact Or.inr (Or.inr ⟨frame, rfl, rfl, rfl⟩)
                  | some t =>
                      rw [hrs] at hstep
                      simp only [] at hstep
                      by_cases hmax : (!(decide (t = 0))
                          && decide (env.now - t > MAX_RECORDING_SECONDS)) = true
                      · rw [if_pos hmax] at hstep
                        obtain ⟨h1, h2⟩ := finalizeStep_next_clears _ _ _ hstep
                        exact Or.inr (Or.inl ⟨h1, h2⟩)
                      · rw [if_neg hmax] at hstep
                        rw [idleCheck_next_of_recording _ _ rfl] at hstep
                        cases hstep
                        exact Or.inr (Or.inr ⟨frame, rfl, rfl, rfl⟩)
              | false =>
                  simp only [if_neg (show ¬((false : Bool) = true) by simp)] at hstep
                  by_cases hth : SILENCE_FRAMES_THRESHOLD ≤ s.consecutiveSilenceFrames + 1
                  · rw [if_pos hth] at hstep
                    obtain ⟨h1, h2⟩ := finalizeStep_next_clears _ _ _ hstep
                    exact Or.inr (Or.inl ⟨h1, h2⟩)
                  · rw [if_neg hth] at hstep
                    rw [idleCheck_next_of_recording _ _ rfl] at hstep
                    cases hstep
                    exact Or.inl ⟨rfl, rfl⟩

/-- C10: while the engine is Active, a frame classified non-speech is
never appended to the utterance and never enters the pre-roll buffer
(both either stay as they are or are emptied by a reset/finalization);
moreover any frame an Active iteration appends to the utterance is
exactly the speech-classified frame just read, so a finalized utterance
is its seed followed only by speech frames — interior silence is
dropped. -/
theorem active_nonspeech_never_recorded (g : ℕ) (s : EngineState) (env : LoopEnv)
    (hrec : s.recording = true) :
    (∀ frame, env.read = .readOk frame false →
        ∀ s1, step g s env = .next s1 →
          (s1.recordedFrames = s.recordedFrames ∨ s1.recordedFrames = [])
          ∧ (s1.preBuffer = s.preBuffer ∨ s1.preBuffer = []))
    ∧ (∀ s1, step g s env = .next s1 →
        (s1.preBuffer = s.preBuffer ∨ s1.preBuffer = [])
        ∧ (s1.recordedFrames = s.recordedFrames ∨ s1.recordedFrames = []
            ∨ ∃ frame, env.read = .readOk frame true
                ∧ s1.recordedFrames = s.recordedFrames ++ [frame])) := by
  constructor
  · intro frame hread s1 hstep
    rcases step_active_cases g s env hrec s1 hstep with ⟨h1, h2⟩ | ⟨h1, h2⟩ | ⟨f, hf, h1, h2⟩
    · exact ⟨Or.inl h1, Or.inl h2⟩
    · exact ⟨Or.inr h1, Or.inr h2⟩
    · rw [hread] at hf
      cases hf
  · intro s1 hstep
    rcases step_active_cases g s env hrec s1 hstep with ⟨h1, h2⟩ | ⟨h1, h2⟩ | ⟨f, hf, h1, h2⟩
    · exact ⟨Or.inl h2, Or.inl h1⟩
    · exact ⟨Or.inr h2, Or.inr (Or.inl h1)⟩
    · exact ⟨Or.inl h2, Or.inr (Or.inr ⟨f, hf, h1⟩)⟩

/-- Witness for C10: an Active engine reading a non-speech frame keeps
its one-frame utterance and empty pre-roll unchanged. -/
theorem active_nonspeech_never_recorded_witness :
    (({ flags := { paused := false, clearBuffer := false }, streamActive := true,
        preBuffer := [], recordedFrames := [[5]], recording := true,
        speechEndTime := none, recordingStartTime := some 10, lastResult := none,
        stopRequested := false, consecutiveSilenceFrames := 0, wasPaused := false,
        ignoreFramesRemaining := 0 } : EngineState).recordedFrames =
      ({ flags := { paused := false, clearBuffer := false }, streamActive := true,
         preBuffer := [], recordedFrames := [[5]], recording := true,
         speechEndTime := none, recordingStartTime := some 10, lastResult := none,
         stopRequested := false, consecutiveSilenceFrames := 0, wasPaused := false,
         ignoreFramesRemaining := 0 } : EngineState).recordedFrames
      ∨ ({ flags := { paused := false, clearBuffer := false }, streamActive := true,
           preBuffer := [], recordedFrames := [[5]], recording := true,
           speechEndTime := none, recordingStartTime := some 10, lastResult := none,
           stopRequested := false, consecutiveSilenceFrames := 0, wasPaused := false,
           ignoreFramesRemaining := 0 } : EngineState).recordedFrames = [])
    ∧ (({ flags := { paused := false, clearBuffer := false }, streamActive := true,
          preBuffer := [], recordedFrames := [[5]], recording := true,
          speechEndTime := none, recordingStartTime := some 10, lastResult := none,
          stopRequested := false, consecutiveSilenceFrames := 0, wasPaused := false,
          ignoreFramesRemaining := 0 } : EngineState).preBuffer =
        ({ flags := { paused := false, clearBuffer := false }, streamActive := true,
           preBuffer := [], recordedFrames := [[5]], recording := true,
           speechEndTime := none, recordingStartTime := some 10, lastResult := none,
           stopRequested := false, consecutiveSilenceFrames := 0, wasPaused := false,
           ignoreFramesRemaining := 0 } : EngineState).preBuffer
        ∨ ({ flags := { paused := false, clearBuffer := false }, streamActive := true,
             preBuffer := [], recordedFrames := [[5]], recording := true,
             speechEndTime := none, recordingStartTime := some 10, lastResult := none,
             stopRequested := false, consecutiveSilenceFrames := 0, wasPaused := false,
             ignoreFramesRemaining := 0 } : EngineState).preBuffer = []) :=
  (active_nonspeech_never_recorded 0
    { flags := { paused := false, clearBuffer := false }, streamActive := true,
      preBuffer := [], recordedFrames := [[5]], recording := true,
      speechEndTime := none, recordingStartTime := some 10, lastResult := none,
      stopRequested := false, consecutiveSilenceFrames := 0, wasPaused := false,
      ignoreFramesRemaining := 0 }
    { read := .readOk [0] false, now := 11, tFinal := 11, enh := some 0,
      hasCallback := false, cbOut := .cbReturn false, cbFlags := id }
    rfl).1 [0] rfl _ rfl

/-- A finalization never produces the idle-exit outcome. -/
theorem finalizeStep_not_exitIdle (s : EngineState) (env : LoopEnv) :
    ∀ s1, finalizeStep s env ≠ .exitIdle s1 := by
  intro s1 h
  unfold finalizeStep at h
  simp only [] at h
  split at h
  · cases h
  · cases h

/-- A finalization that continues the loop always marks `was_paused`,
so the following iteration resets. -/
theorem finalizeStep_next_wasPaused (s : EngineState) (env : LoopEnv) :
    ∀ s1, finalizeStep s env = .next s1 → s1.wasPaused = true := by
  intro s1 h
  unfold finalizeStep at h
  simp only [] at h
  split at h
  · cases h
  · cases h
    rfl

/-- One iteration from any state satisfying the idle-exit invariant never
takes the idle-exit return, and every continuing iteration re-establishes
the invariant. -/
theorem step_idle_inv (g : ℕ) (s : EngineState) (env : LoopEnv)
    (hinv : IdleExitInv s) :
    (∀ s1, step g s env ≠ .exitIdle s1)
    ∧ (∀ s1, step g s env = .next s1 → IdleExitInv s1) := by
  unfold step
  by_cases hp : is_recording_paused s.flags = true
  · rw [if_pos hp]
    refine ⟨(fun s1 h => nomatch h), fun s1 h => ?_⟩
    cases h
    exact Or.inl rfl
  · rw [if_neg hp]
    simp only [should_clear_buffer]
    by_cases hr : (s.wasPaused || s.flags.clearBuffer) = true
    · rw [if_pos hr]
      refine ⟨(fun s1 h => nomatch h), fun s1 h => ?_⟩
      cases h
      exact Or.inr rfl
    · rw [if_neg hr]
      have hwp : s.wasPaused = false := by
        cases hw : s.wasPaused
        · rfl
        · rw [hw] at hr
          simp at hr
      have hse : s.speechEndTime = none := by
        rcases hinv with h | h
        · rw [h] at hwp
          cases hwp
        · exact h
      cases henv : env.read with
      | readFail =>
          refine ⟨(fun s1 h => nomatch h), fun s1 h => ?_⟩
          cases h
          exact Or.inr (by simp [hse])
      | readOk frame speech =>
          simp only []
          by_cases hlen : frame.length ≠ EXPECTED_FRAME_SIZE
          · rw [if_pos hlen]
            refine ⟨(fun s1 h => nomatch h), fun s1 h => ?_⟩
            cases h
            exact Or.inr (by simp [hse])
          · rw [if_neg hlen]
            by_cases hig : 0 < s.ignoreFramesRemaining
            · rw [if_pos hig]
              refine ⟨(fun s1 h => nomatch h), fun s1 h => ?_⟩
              cases h
              exact Or.inr (by simp [hse])
            · rw [if_neg hig]
              cases hrec : s.recording with
              | true =>
                  simp only [show ((true : Bool) = false) = False by simp,
                    show ((true : Bool) = true) = True by simp, if_true, if_false]
                  cases speech with
                  | true =>
                      simp only [show ((true : Bool) = true) = True by simp, if_true]
                      cases hrs : s.recordingStartTime with
                      | none =>
                          simp only [show ((false : Bool) = true) = False by simp,
                            if_false, idleCheck_next_of_none, hse]
                          refine ⟨(fun s1 h => nomatch h), fun s1 h => ?_⟩
                          cases h
                          exact Or.inr (by simp [hse])
                      | some t =>
                          simp only []
                          by_cases hmax : (!(decide (t = 0))
                              && decide (env.now - t > MAX_RECORDING_SECONDS)) = true
                          · rw [if_pos hmax]
                            exact ⟨finalizeStep_not_exitIdle _ _,
                              fun s1 h => Or.inl (finalizeStep_next_wasPaused _ _ s1 h)⟩
                          · rw [if_neg hmax]
                            simp only [idleCheck_next_of_none, hse]
                            refine ⟨(fun s1 h => nomatch h), fun s1 h => ?_⟩
                            cases h
                            exact Or.inr (by simp [hse])
                  | false =>
                      simp only [show ((false : Bool) = true) = False by simp, if_false]
                      by_cases hth :
                          SILENCE_FRAMES_THRESHOLD ≤ s.consecutiveSilenceFrames + 1
                      · rw [if_pos hth]
                        exact ⟨finalizeStep_not_exitIdle _ _,
                          fun s1 h => Or.inl (finalizeStep_next_wasPaused _ _ s1 h)⟩
                      · rw [if_neg hth]
                        simp only [idleCheck_next_of_none, hse]
                        refine ⟨(fun s1 h => nomatch h), fun s1 h => ?_⟩
                        cases h
                        exact Or.inr (by simp [hse])
              | false =>
                  simp only [show ((false : Bool) = false) = True by simp,
                    show ((false : Bool) = true) = False by simp, if_true, if_false]
                  cases speech with
                  | true =>
                      simp only [show ((true : Bool) = true) = True by simp, if_true]
                      have hnogo : decide (env.now - env.now > MAX_RECORDING_SECONDS)
                          = false := by
                        rw [decide_eq_false_iff_not]
                        norm_num [MAX_RECORDING_SECONDS]
                      simp only [hnogo, Bool.and_false,
                        show ((false : Bool) = true) = False by simp, if_false,
                        idleCheck_next_of_none]
                      refine ⟨(fun s1 h => nomatch h), fun s1 h => ?_⟩
                      cases h
                      exact Or.inr rfl
                  | false =>
                      simp only [show ((false : Bool) = true) = False by simp, if_false,
                        idleCheck_next_of_none, hse]
                      refine ⟨(fun s1 h => nomatch h), fun s1 h => ?_⟩
                      cases h
                      exact Or.inr (by simp [hse])

/-- C2 fails on the code: the idle-exit return is unreachable.  The
invariant of `IdleExitInv` — `speech_end_time` is non-`None` only while
a `was_paused` reset is pending, and that reset nulls it before any
frame is read — holds for the initial state under any flag values, is
preserved by every continuing iteration and by arbitrary cross-thread
flag writes, and under it no iteration ever returns through the
idle-exit check; hence after a finalized utterance the loop can never
terminate with "no utterance" as the claim (and the spec) require. -/
theorem idle_exit_unreachable :
    (∀ f, IdleExitInv (initialState f))
    ∧ (∀ g s env s1, IdleExitInv s → step g s env ≠ .exitIdle s1)
    ∧ (∀ g s env s1, IdleExitInv s → step g s env = .next s1 → IdleExitInv s1)
    ∧ (∀ s fl, IdleExitInv s → IdleExitInv { s with flags := fl }) := by
  refine ⟨fun f => Or.inr rfl, ?_, ?_, ?_⟩
  · intro g s env s1 hinv
    exact (step_idle_inv g s env hinv).1 s1
  · intro g s env s1 hinv h
    exact (step_idle_inv g s env hinv).2 s1 h
  · intro s fl hinv
    rcases hinv with h | h
    · exact Or.inl h
    · exact Or.inr h

/-- Witness for C2: the invariant holds at the freshly initialized state
and rules out the idle exit for a concrete iteration. -/
theorem idle_exit_unreachable_witness :
    IdleExitInv (initialState { paused := false, clearBuffer := false })
    ∧ step 0 (initialState { paused := false, clearBuffer := false })
        { read := .readFail, now := 1000, tFinal := 1000, enh := none,
          hasCallback := false, cbOut := .cbReturn false, cbFlags := id }
        ≠ .exitIdle (initialState { paused := false, clearBuffer := false }) :=
  ⟨idle_exit_unreachable.1 { paused := false, clearBuffer := false },
   idle_exit_unreachable.2.1 0 (initialState { paused := false, clearBuffer := false })
     { read := .readFail, now := 1000, tFinal := 1000, enh := none,
       hasCallback := false, cbOut := .cbReturn false, cbFlags := id }
     (initialState { paused := false, clearBuffer := false })
     (idle_exit_unreachable.1 { paused := false, clearBuffer := false })⟩

end Phase2
